import Mathlib

/-!
Verification of `ApiClient::ExecuteScript` and `ApiClient::AutocompleteScript`
from `src/lib/remote/apiclient.cpp` (Icinga 2 remote console client).

The embedding models the JSON-like `Value` runtime type of the base library,
the dictionary/array accessors used by the client, the response-classification
pipeline of both operations, and the request composition (URL query built via
a key-ordered `std::map`).
-/

namespace IcingaApi

/-- JSON-like runtime value, mirroring the base library's `Value` type as the
JSON decoder produces it: empty (null/absent), boolean, number, string,
array (`Array::Ptr`), dictionary (`Dictionary::Ptr`). -/
inductive Value where
  | empty
  | bool (b : Bool)
  | num (n : Int)
  | str (s : String)
  | arr (elems : List Value)
  | dict (fields : List (String × Value))

/-- A decoded JSON dictionary: ordered association list of string keys. -/
abbrev Dict := List (String × Value)

/-- `Dictionary::Get(key)`: the value stored under `key`, or the empty value
when the key is absent (the base library never crashes on a missing key). -/
def dictGet (d : Dict) (key : String) : Value :=
  match d.find? (fun p => p.fst == key) with
  | some p => p.snd
  | none => .empty

/-- Numeric conversion of a `Value`, as used by `resultInfo->Get("code") >= 200`
and the integral `DebugInfo` field assignments: empty converts to 0, booleans
to 0/1, numbers to themselves. Other shapes (which a well-formed envelope
never puts in these fields; the spec treats any non-[200,299] code, absent
included, as failure) are modelled as 0. -/
def Value.toNumber : Value → Int
  | .empty => 0
  | .bool b => if b then 1 else 0
  | .num n => n
  | _ => 0

/-- Boolean conversion of a `Value`, as used by
`bool incompleteExpression = resultInfo->Get("incomplete_expression")`:
empty converts to false, a boolean to itself, a number to its non-zeroness. -/
def Value.toBool : Value → Bool
  | .empty => false
  | .bool b => b
  | .num n => n != 0
  | _ => true

/-- String conversion of a `Value`, as used by
`String errorMessage = resultInfo->Get("status")`: the empty value renders as
the empty string, a string as itself, numbers and booleans via their textual
form. -/
def Value.toText : Value → String
  | .empty => ""
  | .bool b => if b then "true" else "false"
  | .num n => toString n
  | .str s => s
  | _ => ""

/-- The implicit cast of a `Value` to `Array::Ptr`
(`Array::Ptr results = answer->Get("results")`): the empty value casts to the
null pointer (`none`), an array value to that array; any other shape raises
`std::bad_cast`, modelled as the outer `none`. -/
def castArray : Value → Option (Option (List Value))
  | .empty => some none
  | .arr a => some (some a)
  | _ => none

/-- The implicit cast of a `Value` to `Dictionary::Ptr`
(`Dictionary::Ptr debugInfo = resultInfo->Get("debug_info")`): empty casts to
the null pointer, a dictionary to itself, anything else raises
`std::bad_cast`, modelled as the outer `none`. -/
def castDict : Value → Option (Option Dict)
  | .empty => some none
  | .dict d => some (some d)
  | _ => none

/-- Source-location debug information attached to a `ScriptError`
(`DebugInfo di;` default-constructs to empty path and zero positions). -/
structure DebugInfo where
  Path : String := ""
  FirstLine : Int := 0
  FirstColumn : Int := 0
  LastLine : Int := 0
  LastColumn : Int := 0
deriving DecidableEq

/-- The `ScriptError` exception: message, optional source location, and the
incomplete-expression flag (single-argument construction leaves the location
all-default and the flag false). -/
structure ScriptError where
  message : String
  debugInfo : DebugInfo := {}
  incompleteExpression : Bool := false
deriving DecidableEq

/-- A fully assembled HTTP response as the read loop leaves it: the completion
flag, the status code, and the body text. -/
structure HttpResponse where
  complete : Bool
  statusCode : Nat
  body : String

/-- Observable outcome of `ExecuteScript` after the connection succeeded:
an early `return nullptr` (soft failure), the normal `return result`, a thrown
`ScriptError`, or an uncaught collaborator cast fault (`std::bad_cast` /
null dereference), which no well-formed envelope triggers. -/
inductive ExecOutcome where
  | softFail
  | result (v : Value)
  | raise (e : ScriptError)
  | fault

/-- Observable outcome of `AutocompleteScript` after the connection succeeded:
an early `return nullptr`, the normal `return suggestions` (a possibly-null
`Array::Ptr`), a thrown `ScriptError`, or an uncaught collaborator cast
fault. -/
inductive AutoOutcome where
  | softFail
  | suggestions (v : Option (List Value))
  | raise (e : ScriptError)
  | fault

/-- The envelope-handling tail of `ExecuteScript` (lines 135-161): read
`results`, consult only its first entry, return the entry's `result` on a
2xx entry code, otherwise translate the entry into a thrown `ScriptError`
with `DebugInfo` and the incomplete-expression flag. -/
def ExecuteScriptAnswer (answer : Dict) : ExecOutcome :=
  match castArray (dictGet answer "results") with
  | none => .fault
  | some none => .result .empty
  | some (some []) => .result .empty
  | some (some (e :: _)) =>
    match e with
    | .dict resultInfo =>
      let errorMessage := (dictGet resultInfo "status").toText
      if 200 ≤ (dictGet resultInfo "code").toNumber ∧
          (dictGet resultInfo "code").toNumber ≤ 299 then
        .result (dictGet resultInfo "result")
      else
        match castDict (dictGet resultInfo "debug_info") with
        | none => .fault
        | some odbg =>
          let di : DebugInfo :=
            match odbg with
            | some dbg =>
              { Path := (dictGet dbg "path").toText
                FirstLine := (dictGet dbg "first_line").toNumber
                FirstColumn := (dictGet dbg "first_column").toNumber
                LastLine := (dictGet dbg "last_line").toNumber
                LastColumn := (dictGet dbg "last_column").toNumber }
            | none => {}
          .raise { message := errorMessage
                   debugInfo := di
                   incompleteExpression :=
                     (dictGet resultInfo "incomplete_expression").toBool }
    | _ => .fault

/-- The response-classification pipeline of `ExecuteScript` (lines 105-161):
an incomplete response returns null; a non-2xx status returns null (logged,
not thrown); a JSON decode failure returns null; otherwise the decoded
envelope is handled. `jsonDecode` abstracts the collaborator `JsonDecode`
composed with the cast to `Dictionary::Ptr`; both failure modes land in the
`catch` and are merged into `none`. -/
def ExecuteScriptResponse (jsonDecode : String → Option Dict)
    (resp : HttpResponse) : ExecOutcome :=
  if !resp.complete then .softFail
  else if resp.statusCode < 200 ∨ resp.statusCode > 299 then .softFail
  else
    match jsonDecode resp.body with
    | none => .softFail
    | some answer => ExecuteScriptAnswer answer

/-- The envelope-handling tail of `AutocompleteScript` (lines 234-248): read
`results`, consult only its first entry, return the entry's `suggestions`
array (a null pointer when the field is absent) on a 2xx entry code,
otherwise throw a `ScriptError` carrying the message only. -/
def AutocompleteScriptAnswer (answer : Dict) : AutoOutcome :=
  match castArray (dictGet answer "results") with
  | none => .fault
  | some none => .suggestions none
  | some (some []) => .suggestions none
  | some (some (e :: _)) =>
    match e with
    | .dict resultInfo =>
      let errorMessage := (dictGet resultInfo "status").toText
      if 200 ≤ (dictGet resultInfo "code").toNumber ∧
          (dictGet resultInfo "code").toNumber ≤ 299 then
        match castArray (dictGet resultInfo "suggestions") with
        | none => .fault
        | some sg => .suggestions sg
      else
        .raise { message := errorMessage }
    | _ => .fault

/-- The response-classification pipeline of `AutocompleteScript`
(lines 207-248): an incomplete response returns null; a non-2xx status throws
a `ScriptError` whose message is built from the status code and the body
text; a JSON decode failure returns null; otherwise the decoded envelope is
handled. -/
def AutocompleteScriptResponse (jsonDecode : String → Option Dict)
    (resp : HttpResponse) : AutoOutcome :=
  if !resp.complete then .softFail
  else if resp.statusCode < 200 ∨ resp.statusCode > 299 then
    .raise { message := "HTTP request failed; Code: " ++ toString resp.statusCode
                          ++ "; Body: " ++ resp.body }
  else
    match jsonDecode resp.body with
    | none => .softFail
    | some answer => AutocompleteScriptAnswer answer

/-- Lexicographic order on character lists, mirroring `std::string`'s
`operator<` used by `std::map<String, ...>` to order its keys. -/
def charListLt : List Char → List Char → Bool
  | [], [] => false
  | [], _ :: _ => true
  | _ :: _, [] => false
  | a :: as, b :: bs =>
    if a.val = b.val then charListLt as bs else decide (a.val < b.val)

/-- Lexicographic order on strings (the ordering of `std::map` keys). -/
def strLt (a b : String) : Bool := charListLt a.data b.data

/-- Insertion into the `std::map<String, std::vector<String>>` used for the
query parameters: `params[key].push_back(value)`. A `std::map` keeps its
entries ordered by key, not by insertion order; inserting an existing key
appends to that key's value vector. -/
def mapInsert : List (String × List String) → String → String →
    List (String × List String)
  | [], key, value => [(key, [value])]
  | (k, vs) :: rest, key, value =>
    if key == k then (k, vs ++ [value]) :: rest
    else if strLt key k then (key, [value]) :: (k, vs) :: rest
    else (k, vs) :: mapInsert rest key value

/-- The query-parameter map both operations build (lines 70-74 and 174-178):
`session`, `command`, `sandboxed` pushed in that order into a fresh
`std::map`, the flag rendered as "1"/"0". -/
def buildParams (session command : String) (sandboxed : Bool) :
    List (String × List String) :=
  mapInsert (mapInsert (mapInsert [] "session" session) "command" command)
    "sandboxed" (if sandboxed then "1" else "0")

/-- A URL as the `Url` collaborator stores it: scheme, host, port, path
segments, and the query-parameter map in the order `SetQuery` received it. -/
structure Url where
  scheme : String := ""
  host : String := ""
  port : String := ""
  path : List String := []
  query : List (String × List String) := []

/-- An HTTP request as composed by the client: method, target URL, headers in
insertion order, and the sequence of `WriteBody` payloads issued before
`Finish`. -/
structure HttpRequest where
  method : String
  url : Url
  headers : List (String × String)
  bodyWrites : List String

/-- The request composed by `ExecuteScript` (lines 63-85): POST to
`v1/console/execute-script` with the three query parameters, Basic
authentication and JSON accept headers, and one explicit zero-length body
write (`req.WriteBody("", 0)`). `base64Encode` abstracts the collaborator
`Base64::Encode`. -/
def ExecuteScriptRequest (base64Encode : String → String)
    (host port user password session command : String) (sandboxed : Bool) :
    HttpRequest :=
  { method := "POST"
    url := { scheme := "https", host := host, port := port
             path := ["v1", "console", "execute-script"]
             query := buildParams session command sandboxed }
    headers := [("Authorization",
                  "Basic " ++ base64Encode (user ++ ":" ++ password)),
                ("Accept", "application/json")]
    bodyWrites := [""] }

/-- The request composed by `AutocompleteScript` (lines 168-188): POST to
`v1/console/auto-complete-script` with the same query parameters and headers,
finished without any `WriteBody` call. -/
def AutocompleteScriptRequest (base64Encode : String → String)
    (host port user password session command : String) (sandboxed : Bool) :
    HttpRequest :=
  { method := "POST"
    url := { scheme := "https", host := host, port := port
             path := ["v1", "console", "auto-complete-script"]
             query := buildParams session command sandboxed }
    headers := [("Authorization",
                  "Basic " ++ base64Encode (user ++ ":" ++ password)),
                ("Accept", "application/json")]
    bodyWrites := [] }

/-! ## Theorems -/

/-- C5: for every response whose read loop ends without the response reaching
completion, both `ExecuteScript` and `AutocompleteScript` return their soft
"no answer" value (null) and raise no error. -/
theorem c5_incomplete_soft (jsonDecode : String → Option Dict)
    (resp : HttpResponse) (hc : resp.complete = false) :
    ExecuteScriptResponse jsonDecode resp = .softFail ∧
    AutocompleteScriptResponse jsonDecode resp = .softFail := by
  constructor <;>
    simp [ExecuteScriptResponse, AutocompleteScriptResponse, hc]

/-- C5 witness: a concrete incomplete response yields the soft outcome for
both operations. -/
theorem c5_incomplete_soft_witness :
    ExecuteScriptResponse (fun _ => none) ⟨false, 200, "x"⟩ = .softFail ∧
    AutocompleteScriptResponse (fun _ => none) ⟨false, 200, "x"⟩ = .softFail :=
  c5_incomplete_soft (fun _ => none) ⟨false, 200, "x"⟩ rfl

/-- C2: for every complete response with status outside [200,299],
`ExecuteScript` returns its soft-failure value without raising, while
`AutocompleteScript` raises a `ScriptError` whose message is exactly
"HTTP request failed; Code: <code>; Body: <body>". -/
theorem c2_status_asymmetry (jsonDecode : String → Option Dict)
    (resp : HttpResponse) (hc : resp.complete = true)
    (hs : resp.statusCode < 200 ∨ resp.statusCode > 299) :
    ExecuteScriptResponse jsonDecode resp = .softFail ∧
    AutocompleteScriptResponse jsonDecode resp =
      .raise ⟨"HTTP request failed; Code: " ++ toString resp.statusCode
                ++ "; Body: " ++ resp.body, {}, false⟩ := by
  constructor <;>
    simp [ExecuteScriptResponse, AutocompleteScriptResponse, hc, hs]

/-- C2 witness: HTTP status 500 with body "boom" gives a soft failure for
`ExecuteScript` and the exact `ScriptError` message for
`AutocompleteScript`. -/
theorem c2_status_asymmetry_witness :
    ExecuteScriptResponse (fun _ => none) ⟨true, 500, "boom"⟩ = .softFail ∧
    AutocompleteScriptResponse (fun _ => none) ⟨true, 500, "boom"⟩ =
      .raise ⟨"HTTP request failed; Code: 500; Body: boom", {}, false⟩ := by
  have h := c2_status_asymmetry (fun _ => none) ⟨true, 500, "boom"⟩ rfl
    (by decide)
  exact h

/-- C6: when the decoded envelope's `results` sequence is absent or empty,
both operations terminate without crashing and without raising:
`ExecuteScript` returns its default (empty) payload and `AutocompleteScript`
returns no suggestions. -/
theorem c6_empty_results_default (jsonDecode : String → Option Dict)
    (resp : HttpResponse) (answer : Dict)
    (hc : resp.complete = true)
    (h1 : 200 ≤ resp.statusCode) (h2 : resp.statusCode ≤ 299)
    (hj : jsonDecode resp.body = some answer)
    (hres : dictGet answer "results" = .empty ∨
            dictGet answer "results" = .arr []) :
    ExecuteScriptResponse jsonDecode resp = .result .empty ∧
    AutocompleteScriptResponse jsonDecode resp = .suggestions none := by
  have hs : ¬ (resp.statusCode < 200 ∨ resp.statusCode > 299) := by omega
  rcases hres with h | h <;> constructor <;>
    simp [ExecuteScriptResponse, AutocompleteScriptResponse, hc, hs, hj,
      ExecuteScriptAnswer, AutocompleteScriptAnswer, h, castArray]

/-- C6 witness: the envelope with an empty `results` array gives the default
payload for `ExecuteScript` and no suggestions for `AutocompleteScript`. -/
theorem c6_empty_results_default_witness :
    ExecuteScriptResponse (fun _ => some [("results", Value.arr [])])
      ⟨true, 200, "e"⟩ = .result .empty ∧
    AutocompleteScriptResponse (fun _ => some [("results", Value.arr [])])
      ⟨true, 200, "e"⟩ = .suggestions none :=
  c6_empty_results_default (fun _ => some [("results", Value.arr [])])
    ⟨true, 200, "e"⟩ [("results", Value.arr [])] rfl (by decide) (by decide)
    rfl (Or.inr rfl)

/-- C1 counterexample: with a success entry whose `suggestions` field is
absent, `AutocompleteScript` returns the null (absent) array, which is not
the empty sequence the claim promises. -/
theorem c1_counterexample :
    AutocompleteScriptResponse
        (fun _ => some [("results", Value.arr [Value.dict [("code", Value.num 200)]])])
        ⟨true, 200, "a"⟩ = .suggestions none ∧
    AutoOutcome.suggestions none ≠ .suggestions (some ([] : List Value)) :=
  ⟨rfl, by simp⟩

/-- C1 (amended): for every complete 2xx response whose decoded envelope's
first `results` entry has code in [200,299], `ExecuteScript` returns exactly
that entry's `result` field value, and `AutocompleteScript` returns exactly
that entry's `suggestions` array when present, and the null (absent) array —
not an empty sequence — when `suggestions` is absent. -/
theorem c1_success_payloads (jsonDecode : String → Option Dict)
    (resp : HttpResponse) (answer entry : Dict) (rest : List Value)
    (hc : resp.complete = true)
    (h1 : 200 ≤ resp.statusCode) (h2 : resp.statusCode ≤ 299)
    (hj : jsonDecode resp.body = some answer)
    (hr : dictGet answer "results" = .arr (.dict entry :: rest))
    (hcode : 200 ≤ (dictGet entry "code").toNumber ∧
             (dictGet entry "code").toNumber ≤ 299) :
    ExecuteScriptResponse jsonDecode resp = .result (dictGet entry "result") ∧
    (dictGet entry "suggestions" = .empty →
      AutocompleteScriptResponse jsonDecode resp = .suggestions none) ∧
    (∀ a, dictGet entry "suggestions" = .arr a →
      AutocompleteScriptResponse jsonDecode resp = .suggestions (some a)) := by
  have hs : ¬ (resp.statusCode < 200 ∨ resp.statusCode > 299) := by omega
  refine ⟨?_, fun hsug => ?_, fun a hsug => ?_⟩
  · simp [ExecuteScriptResponse, hc, hs, hj, ExecuteScriptAnswer, hr,
      castArray, hcode.1, hcode.2]
  · simp [AutocompleteScriptResponse, hc, hs, hj, AutocompleteScriptAnswer,
      hr, castArray, hcode.1, hcode.2, hsug]
  · simp [AutocompleteScriptResponse, hc, hs, hj, AutocompleteScriptAnswer,
      hr, castArray, hcode.1, hcode.2, hsug]

/-- C1 witness: a concrete success envelope carrying a `result` value and a
`suggestions` array is returned verbatim by both operations. -/
theorem c1_success_payloads_witness :
    ExecuteScriptResponse
        (fun _ => some [("results", Value.arr [Value.dict
          [("code", Value.num 200), ("result", Value.num 7),
           ("suggestions", Value.arr [Value.str "sug"])]])])
        ⟨true, 200, "b"⟩ = .result (Value.num 7) ∧
    AutocompleteScriptResponse
        (fun _ => some [("results", Value.arr [Value.dict
          [("code", Value.num 200), ("result", Value.num 7),
           ("suggestions", Value.arr [Value.str "sug"])]])])
        ⟨true, 200, "b"⟩ = .suggestions (some [Value.str "sug"]) := by
  have h := c1_success_payloads
    (fun _ => some [("results", Value.arr [Value.dict
      [("code", Value.num 200), ("result", Value.num 7),
       ("suggestions", Value.arr [Value.str "sug"])]])])
    ⟨true, 200, "b"⟩
    [("results", Value.arr [Value.dict
      [("code", Value.num 200), ("result", Value.num 7),
       ("suggestions", Value.arr [Value.str "sug"])]])]
    [("code", Value.num 200), ("result", Value.num 7),
     ("suggestions", Value.arr [Value.str "sug"])]
    [] rfl (by decide) (by decide) rfl rfl (by decide)
  exact ⟨h.1, h.2.2 [Value.str "sug"] rfl⟩

/-- C3: for a first entry with code outside [200,299], `ExecuteScript` raises
a `ScriptError` whose `DebugInfo` copies the entry's `debug_info` fields
verbatim when `debug_info` is present and is all-default when it is absent,
and whose incomplete-expression flag equals the entry's
`incomplete_expression` field when present and false otherwise;
`AutocompleteScript` raises a `ScriptError` carrying the message only. -/
theorem c3_error_translation (jsonDecode : String → Option Dict)
    (resp : HttpResponse) (answer entry : Dict) (rest : List Value)
    (hc : resp.complete = true)
    (h1 : 200 ≤ resp.statusCode) (h2 : resp.statusCode ≤ 299)
    (hj : jsonDecode resp.body = some answer)
    (hr : dictGet answer "results" = .arr (.dict entry :: rest))
    (hcode : ¬ (200 ≤ (dictGet entry "code").toNumber ∧
                (dictGet entry "code").toNumber ≤ 299)) :
    (∀ dbg p fl fc ll lc, dictGet entry "debug_info" = .dict dbg →
      dictGet dbg "path" = .str p →
      dictGet dbg "first_line" = .num fl →
      dictGet dbg "first_column" = .num fc →
      dictGet dbg "last_line" = .num ll →
      dictGet dbg "last_column" = .num lc →
      ExecuteScriptResponse jsonDecode resp =
        .raise ⟨(dictGet entry "status").toText, ⟨p, fl, fc, ll, lc⟩,
                (dictGet entry "incomplete_expression").toBool⟩) ∧
    (dictGet entry "debug_info" = .empty →
      ExecuteScriptResponse jsonDecode resp =
        .raise ⟨(dictGet entry "status").toText, {},
                (dictGet entry "incomplete_expression").toBool⟩) ∧
    (∀ b, dictGet entry "incomplete_expression" = .bool b →
      (dictGet entry "incomplete_expression").toBool = b) ∧
    (dictGet entry "incomplete_expression" = .empty →
      (dictGet entry "incomplete_expression").toBool = false) ∧
    AutocompleteScriptResponse jsonDecode resp =
      .raise ⟨(dictGet entry "status").toText, {}, false⟩ := by
  have hs : ¬ (resp.statusCode < 200 ∨ resp.statusCode > 299) := by omega
  refine ⟨fun dbg p fl fc ll lc hdbg hp hfl hfc hll hlc => ?_,
          fun hdbg => ?_,
          fun b hb => by simp [hb, Value.toBool],
          fun hb => by simp [hb, Value.toBool], ?_⟩
  · simp only [ExecuteScriptResponse, hc, hs, hj, ExecuteScriptAnswer, hr,
      castArray, hcode, Bool.not_true, Bool.false_eq_true, if_false,
      if_neg hs, if_neg hcode, hdbg, castDict]
    simp [hp, hfl, hfc, hll, hlc, Value.toText, Value.toNumber]
  · simp [ExecuteScriptResponse, hc, hs, hj, ExecuteScriptAnswer, hr,
      castArray, hcode, hdbg, castDict]
  · simp [AutocompleteScriptResponse, hc, hs, hj, AutocompleteScriptAnswer,
      hr, castArray, hcode]

/-- C3 witness: a concrete failure entry with a fully populated `debug_info`
dictionary raises the fully populated `ScriptError` from `ExecuteScript` and
the message-only `ScriptError` from `AutocompleteScript`. -/
theorem c3_error_translation_witness :
    ExecuteScriptResponse
        (fun _ => some [("results", Value.arr [Value.dict
          [("code", Value.num 500), ("status", Value.str "oops"),
           ("incomplete_expression", Value.bool true),
           ("debug_info", Value.dict
             [("path", Value.str "x"), ("first_line", Value.num 3),
              ("first_column", Value.num 1), ("last_line", Value.num 3),
              ("last_column", Value.num 5)])]])])
        ⟨true, 200, "w"⟩ = .raise ⟨"oops", ⟨"x", 3, 1, 3, 5⟩, true⟩ ∧
    AutocompleteScriptResponse
        (fun _ => some [("results", Value.arr [Value.dict
          [("code", Value.num 500), ("status", Value.str "oops"),
           ("incomplete_expression", Value.bool true),
           ("debug_info", Value.dict
             [("path", Value.str "x"), ("first_line", Value.num 3),
              ("first_column", Value.num 1), ("last_line", Value.num 3),
              ("last_column", Value.num 5)])]])])
        ⟨true, 200, "w"⟩ = .raise ⟨"oops", {}, false⟩ := by
  have h := c3_error_translation
    (fun _ => some [("results", Value.arr [Value.dict
      [("code", Value.num 500), ("status", Value.str "oops"),
       ("incomplete_expression", Value.bool true),
       ("debug_info", Value.dict
         [("path", Value.str "x"), ("first_line", Value.num 3),
          ("first_column", Value.num 1), ("last_line", Value.num 3),
          ("last_column", Value.num 5)])]])])
    ⟨true, 200, "w"⟩
    [("results", Value.arr [Value.dict
      [("code", Value.num 500), ("status", Value.str "oops"),
       ("incomplete_expression", Value.bool true),
       ("debug_info", Value.dict
         [("path", Value.str "x"), ("first_line", Value.num 3),
          ("first_column", Value.num 1), ("last_line", Value.num 3),
          ("last_column", Value.num 5)])]])]
    [("code", Value.num 500), ("status", Value.str "oops"),
     ("incomplete_expression", Value.bool true),
     ("debug_info", Value.dict
       [("path", Value.str "x"), ("first_line", Value.num 3),
        ("first_column", Value.num 1), ("last_line", Value.num 3),
        ("last_column", Value.num 5)])]
    [] rfl (by decide) (by decide) rfl rfl (by decide)
  exact ⟨h.1 [("path", Value.str "x"), ("first_line", Value.num 3),
    ("first_column", Value.num 1), ("last_line", Value.num 3),
    ("last_column", Value.num 5)] "x" 3 1 3 5 rfl rfl rfl rfl rfl rfl,
    h.2.2.2.2⟩

/-- C4 counterexample: a failure entry with no `status` field yields a
`ScriptError` whose message is the empty string, not the claimed
"Unexpected result from API" fallback (the default is assigned before the
entry is read and is overwritten unconditionally). -/
theorem c4_counterexample :
    ExecuteScriptResponse
        (fun _ => some [("results", Value.arr [Value.dict [("code", Value.num 500)]])])
        ⟨true, 200, "c"⟩ = .raise ⟨"", {}, false⟩ ∧
    AutocompleteScriptResponse
        (fun _ => some [("results", Value.arr [Value.dict [("code", Value.num 500)]])])
        ⟨true, 200, "c"⟩ = .raise ⟨"", {}, false⟩ ∧
    ("" : String) ≠ "Unexpected result from API" ∧
    ("" : String) ≠ "Unexpected result from API." :=
  ⟨rfl, rfl, by decide, by decide⟩

/-- C4 (amended): when a failure entry is translated into a `ScriptError`,
the error message equals the entry's `status` field rendered as text, which
is the empty string — not "Unexpected result from API" — when the field is
absent; the default message is overwritten unconditionally as soon as a
first entry exists, so it never reaches a raised error. -/
theorem c4_message_from_status (jsonDecode : String → Option Dict)
    (resp : HttpResponse) (answer entry : Dict) (rest : List Value)
    (odbg : Option Dict)
    (hc : resp.complete = true)
    (h1 : 200 ≤ resp.statusCode) (h2 : resp.statusCode ≤ 299)
    (hj : jsonDecode resp.body = some answer)
    (hr : dictGet answer "results" = .arr (.dict entry :: rest))
    (hcode : ¬ (200 ≤ (dictGet entry "code").toNumber ∧
                (dictGet entry "code").toNumber ≤ 299))
    (hdbg : castDict (dictGet entry "debug_info") = some odbg) :
    AutocompleteScriptResponse jsonDecode resp =
      .raise ⟨(dictGet entry "status").toText, {}, false⟩ ∧
    (∃ di ie, ExecuteScriptResponse jsonDecode resp =
      .raise ⟨(dictGet entry "status").toText, di, ie⟩) ∧
    (dictGet entry "status" = .empty →
      (dictGet entry "status").toText = "") ∧
    (∀ m, dictGet entry "status" = .str m →
      (dictGet entry "status").toText = m) := by
  have hs : ¬ (resp.statusCode < 200 ∨ resp.statusCode > 299) := by omega
  refine ⟨?_, ?_, fun h => by simp [h, Value.toText],
          fun m h => by simp [h, Value.toText]⟩
  · simp [AutocompleteScriptResponse, hc, hs, hj, AutocompleteScriptAnswer,
      hr, castArray, hcode]
  · refine ⟨(match odbg with
      | some dbg =>
        { Path := (dictGet dbg "path").toText
          FirstLine := (dictGet dbg "first_line").toNumber
          FirstColumn := (dictGet dbg "first_column").toNumber
          LastLine := (dictGet dbg "last_line").toNumber
          LastColumn := (dictGet dbg "last_column").toNumber }
      | none => {}), (dictGet entry "incomplete_expression").toBool, ?_⟩
    simp [ExecuteScriptResponse, hc, hs, hj, ExecuteScriptAnswer, hr,
      castArray, hcode, hdbg]
    cases odbg <;> rfl

/-- C4 witness: a concrete failure entry whose `status` field is the string
"failmsg" raises a `ScriptError` with exactly that message. -/
theorem c4_message_from_status_witness :
    AutocompleteScriptResponse
        (fun _ => some [("results", Value.arr [Value.dict
          [("code", Value.num 400), ("status", Value.str "failmsg")]])])
        ⟨true, 200, "s"⟩ = .raise ⟨"failmsg", {}, false⟩ := by
  have h := c4_message_from_status
    (fun _ => some [("results", Value.arr [Value.dict
      [("code", Value.num 400), ("status", Value.str "failmsg")]])])
    ⟨true, 200, "s"⟩
    [("results", Value.arr [Value.dict
      [("code", Value.num 400), ("status", Value.str "failmsg")]])]
    [("code", Value.num 400), ("status", Value.str "failmsg")]
    [] none rfl (by decide) (by decide) rfl rfl (by decide) rfl
  exact h.1

/-- C7: at most the first element of the `results` sequence is consulted by
either operation; two calls whose envelopes share the same first entry have
the same outcome no matter what further entries the server returned. -/
theorem c7_first_entry_only (jd1 jd2 : String → Option Dict)
    (resp1 resp2 : HttpResponse) (answer1 answer2 : Dict) (e : Value)
    (rest1 rest2 : List Value)
    (hc1 : resp1.complete = true) (hc2 : resp2.complete = true)
    (h11 : 200 ≤ resp1.statusCode) (h12 : resp1.statusCode ≤ 299)
    (h21 : 200 ≤ resp2.statusCode) (h22 : resp2.statusCode ≤ 299)
    (hj1 : jd1 resp1.body = some answer1)
    (hj2 : jd2 resp2.body = some answer2)
    (hr1 : dictGet answer1 "results" = .arr (e :: rest1))
    (hr2 : dictGet answer2 "results" = .arr (e :: rest2)) :
    ExecuteScriptResponse jd1 resp1 = ExecuteScriptResponse jd2 resp2 ∧
    AutocompleteScriptResponse jd1 resp1 =
      AutocompleteScriptResponse jd2 resp2 := by
  have hs1 : ¬ (resp1.statusCode < 200 ∨ resp1.statusCode > 299) := by omega
  have hs2 : ¬ (resp2.statusCode < 200 ∨ resp2.statusCode > 299) := by omega
  constructor <;>
    simp [ExecuteScriptResponse, AutocompleteScriptResponse, hc1, hc2, hs1,
      hs2, hj1, hj2, ExecuteScriptAnswer, AutocompleteScriptAnswer, hr1,
      hr2, castArray]

/-- C7 witness: appending a second (failing) entry after a success entry
leaves the outcome of both operations unchanged. -/
theorem c7_first_entry_only_witness :
    ExecuteScriptResponse
        (fun _ => some [("results", Value.arr
          [Value.dict [("code", Value.num 200), ("result", Value.num 7)]])])
        ⟨true, 200, "u"⟩ =
      ExecuteScriptResponse
        (fun _ => some [("results", Value.arr
          [Value.dict [("code", Value.num 200), ("result", Value.num 7)],
           Value.dict [("code", Value.num 500)]])])
        ⟨true, 200, "v"⟩ ∧
    AutocompleteScriptResponse
        (fun _ => some [("results", Value.arr
          [Value.dict [("code", Value.num 200), ("result", Value.num 7)]])])
        ⟨true, 200, "u"⟩ =
      AutocompleteScriptResponse
        (fun _ => some [("results", Value.arr
          [Value.dict [("code", Value.num 200), ("result", Value.num 7)],
           Value.dict [("code", Value.num 500)]])])
        ⟨true, 200, "v"⟩ :=
  c7_first_entry_only
    (fun _ => some [("results", Value.arr
      [Value.dict [("code", Value.num 200), ("result", Value.num 7)]])])
    (fun _ => some [("results", Value.arr
      [Value.dict [("code", Value.num 200), ("result", Value.num 7)],
       Value.dict [("code", Value.num 500)]])])
    ⟨true, 200, "u"⟩ ⟨true, 200, "v"⟩
    [("results", Value.arr
      [Value.dict [("code", Value.num 200), ("result", Value.num 7)]])]
    [("results", Value.arr
      [Value.dict [("code", Value.num 200), ("result", Value.num 7)],
       Value.dict [("code", Value.num 500)]])]
    (Value.dict [("code", Value.num 200), ("result", Value.num 7)])
    [] [Value.dict [("code", Value.num 500)]]
    rfl rfl (by decide) (by decide) (by decide) (by decide) rfl rfl rfl rfl

/-- C8 counterexample: the composed query parameters do not appear in
insertion order (session, command, sandboxed); the `std::map` holding them
orders its keys lexicographically. -/
theorem c8_counterexample :
    (ExecuteScriptRequest (fun x => x) "h" "p" "u" "pw" "sess" "cmd"
        true).url.query ≠
      [("session", ["sess"]), ("command", ["cmd"]), ("sandboxed", ["1"])] := by
  decide

/-- C8 (amended): for both operations the query parameters are exactly
session, command and sandboxed (the flag rendered "1"/"0"), each key with a
single-element value sequence, but they appear in the key-sorted order of
the `std::map` — command, then sandboxed, then session — not in insertion
order. -/
theorem c8_query_params_sorted (base64Encode : String → String)
    (host port user password session command : String) (sandboxed : Bool) :
    (ExecuteScriptRequest base64Encode host port user password session
        command sandboxed).url.query =
      [("command", [command]),
       ("sandboxed", [if sandboxed then "1" else "0"]),
       ("session", [session])] ∧
    (AutocompleteScriptRequest base64Encode host port user password session
        command sandboxed).url.query =
      [("command", [command]),
       ("sandboxed", [if sandboxed then "1" else "0"]),
       ("session", [session])] :=
  ⟨rfl, rfl⟩

/-- C9: for every `ExecuteScript` call, regardless of the command's content,
the HTTP request body sent is a single explicit zero-length write, so the
body is empty and the command travels only via the query string. -/
theorem c9_execute_empty_body (base64Encode : String → String)
    (host port user password session command : String) (sandboxed : Bool) :
    (ExecuteScriptRequest base64Encode host port user password session
        command sandboxed).bodyWrites = [""] ∧
    String.join ((ExecuteScriptRequest base64Encode host port user password
        session command sandboxed).bodyWrites) = "" :=
  ⟨rfl, rfl⟩

/-- C10: every `AutocompleteScript` request is finished without any body
write at all, unlike `ExecuteScript` which writes one explicit zero-length
body; either way the command travels only via the query string. -/
theorem c10_autocomplete_no_body_write (base64Encode : String → String)
    (host port user password session command : String) (sandboxed : Bool) :
    (AutocompleteScriptRequest base64Encode host port user password session
        command sandboxed).bodyWrites = [] ∧
    (ExecuteScriptRequest base64Encode host port user password session
        command sandboxed).bodyWrites = [""] :=
  ⟨rfl, rfl⟩

end IcingaApi
